import Mathlib

/-!
Shallow embedding of the ngsutils BAM filter/tag pipeline
(`ngsutils/bam/filter.py` and `ngsutils/bam/tag.py`).

Python 2 semantics are modelled explicitly where they matter:
integer `/` is floor division (`Int.fdiv`), `xrange(a, b)` is the
half-open integer range, string `strip`/`split`/`int()` are given
structurally recursive executable models, and mixed-type comparisons
follow CPython 2's total order (`None` below everything, numbers below
strings).
-/

namespace NGSUtils

/-! ### Python string primitives (structural, kernel-reducible) -/

/-- Python whitespace for `str.strip()` / `int()`: space, tab, LF, CR, VT, FF. -/
def pyIsSpace (c : Char) : Bool :=
  c.toNat = 32 ∨ c.toNat = 9 ∨ c.toNat = 10 ∨ c.toNat = 13 ∨ c.toNat = 11 ∨ c.toNat = 12

/-- ASCII decimal digit test. -/
def pyIsDigit (c : Char) : Bool := 48 ≤ c.toNat ∧ c.toNat ≤ 57

/-- `str.strip()` on the underlying character list. -/
def pyStripChars (cs : List Char) : List Char :=
  ((cs.dropWhile pyIsSpace).reverse.dropWhile pyIsSpace).reverse

/-- Python `str.strip()`. -/
def pyStrip (s : String) : String := ⟨pyStripChars s.data⟩

/-- `str.split(sep)` for a one-character separator: split at every occurrence,
no merging of adjacent separators (so it never returns an empty list). -/
def pySplitAux (sep : Char) : List Char → List Char → List (List Char)
  | [], acc => [acc.reverse]
  | c :: rest, acc =>
    if c = sep then acc.reverse :: pySplitAux sep rest []
    else pySplitAux sep rest (c :: acc)

/-- Python `s.split(sep)` with a one-character separator. -/
def pySplit (s : String) (sep : Char) : List String :=
  (pySplitAux sep s.data []).map (fun cs => ⟨cs⟩)

/-- Digit accumulator for `int()`. Any non-digit character aborts the parse. -/
def parseDigits : List Char → Nat → Option Nat
  | [], acc => some acc
  | c :: rest, acc =>
    if pyIsDigit c then parseDigits rest (acc * 10 + (c.toNat - 48)) else none

/-- `int()` on a stripped character list: optional sign, then at least one digit. -/
def pyIntChars : List Char → Option Int
  | [] => none
  | '-' :: rest =>
    if rest = [] then none else (parseDigits rest 0).map (fun n => -(n : Int))
  | '+' :: rest =>
    if rest = [] then none else (parseDigits rest 0).map (fun n => (n : Int))
  | c :: rest =>
    if pyIsDigit c then (parseDigits rest (c.toNat - 48)).map (fun n => (n : Int))
    else none

/-- Python `int(s)`: raises `ValueError` on a non-integer string. -/
def pyInt (s : String) : Except String Int :=
  match pyIntChars (pyStripChars s.data) with
  | some n => .ok n
  | none => .error "ValueError"

/-- Python `list[i]`: raises `IndexError` when out of range. -/
def pyIndex {α : Type} (xs : List α) (i : Nat) : Except String α :=
  match xs.get? i with
  | some x => .ok x
  | none => .error "IndexError"

/-- First character of a string, `none` on the empty string. -/
def pyHead (s : String) : Option Char := s.data.head?

/-- Python 2 `xrange(a, b)`: the integers `a, a+1, ..., b-1` (empty when `b ≤ a`). -/
def xrange (a b : Int) : List Int :=
  (List.range (b - a).toNat).map (fun i => a + (i : Int))

/-- Python 2 integer `/`: floor division. -/
def pydiv (a b : Int) : Int := Int.fdiv a b

/-! ### Data model -/

/-- A tag value as stored on a read: Python int or str.
(Float tag literals are not exercised by anything in this development.) -/
inductive PyVal where
  | int (n : Int)
  | str (s : String)
deriving DecidableEq, Repr

/-- The slice of a pysam `AlignedRead` consumed by the embedded code:
identifier, flag-derived booleans, coordinates, mapping quality,
sequence and the (append-only) tag list. -/
structure Record where
  qname : String
  is_unmapped : Bool
  mate_is_unmapped : Bool
  is_paired : Bool
  is_reverse : Bool
  is_secondary : Bool
  is_qcfail : Bool
  rname : Nat
  pos : Int
  aend : Int
  mapq : Int
  seq : String
  tags : List (String × PyVal)
deriving DecidableEq, Repr

/-! ### ExcludeBED / IncludeBED (region index) -/

/-- One parsed BED region as stored in a bucket: `(start, end, strand)`. -/
abbrev BedRegion := Int × Int × String

/-- The `ExcludeBED.regions` dict: `(chrom, bin) ↦ bucket`; `none` means the key
is absent. -/
def RegionMap := String × Int → Option (List BedRegion)

/-- `if not (chrom, bin) in self.regions: self.regions[(chrom, bin)] = []` -/
def ensureBin (m : RegionMap) (chrom : String) (bin : Int) : RegionMap :=
  fun k => if k = (chrom, bin) then some ((m (chrom, bin)).getD []) else m k

/-- `self.regions[(chrom, bin)].append((start, end, strand))`; Python raises
`KeyError` when the key is absent. -/
def appendBin (m : RegionMap) (chrom : String) (bin : Int) (reg : BedRegion) :
    Except String RegionMap :=
  match m (chrom, bin) with
  | none => .error "KeyError"
  | some lst => .ok (fun k => if k = (chrom, bin) then some (lst ++ [reg]) else m k)

/-- The columns of a BED line: `line.strip().split('\t')`. -/
def pyCols (line : String) : List String := pySplit (pyStrip line) '\t'

/-- One iteration of the line loop in `ExcludeBED.__init__` (src/ngsutils/bam/filter.py,
lines 221-239), with the bin size left as a parameter (100000 in the source).
Note that in the source the `append` statement sits OUTSIDE the
`for bin in xrange(startbin, endbin + 1)` loop, so it runs once with `bin`
holding the loop's final value `endbin` (the loop is non-empty whenever
`startbin ≤ endbin`; for an empty bin range the source would die on a stale
or unbound loop variable, modelled here as the `KeyError` in `appendBin`). -/
def processBedLine (binsize : Int) (m : RegionMap) (line : String) :
    Except String RegionMap :=
  if line = "" then .ok m
  else if pyHead line = some '#' then .ok m
  else
    let cols := pyCols line
    match pyIndex cols 0 with
    | .error e => .error e
    | .ok chrom =>
      match pyIndex cols 1 with
      | .error e => .error e
      | .ok s1 =>
        match pyInt s1 with
        | .error e => .error e
        | .ok start =>
          match pyIndex cols 2 with
          | .error e => .error e
          | .ok s2 =>
            match pyInt s2 with
            | .error e => .error e
            | .ok stop =>
              match pyIndex cols 5 with
              | .error e => .error e
              | .ok strand =>
                let startbin := pydiv start binsize
                let endbin := pydiv stop binsize
                let m' := (xrange startbin (endbin + 1)).foldl
                  (fun acc bin => ensureBin acc chrom bin) m
                appendBin m' chrom endbin (start, stop, strand)

/-- The empty `regions` dict. -/
def emptyRegions : RegionMap := fun _ => none

/-- The line loop of `ExcludeBED.__init__` from a given starting dict. -/
def buildBEDFrom (binsize : Int) : RegionMap → List String → Except String RegionMap
  | m, [] => .ok m
  | m, line :: rest =>
    match processBedLine binsize m line with
    | .error e => .error e
    | .ok m' => buildBEDFrom binsize m' rest

/-- `ExcludeBED.__init__`: fold the BED lines into the `(chrom, bin)`-keyed dict. -/
def buildBED (binsize : Int) (lines : List String) : Except String RegionMap :=
  buildBEDFrom binsize emptyRegions lines

/-- The body of the bucket loop in `ExcludeBED.filter`: does this stored region
reject the read (strand-compatible and an endpoint of the read falls inside it)? -/
def bedRegionHits (reg : BedRegion) (read : Record) : Bool :=
  let (start, stop, strand) := reg
  if strand = "+" ∧ read.is_reverse then false
  else if strand = "-" ∧ ¬read.is_reverse then false
  else decide ((start ≤ read.pos ∧ read.pos ≤ stop) ∨
               (start ≤ read.aend ∧ read.aend ≤ stop))

/-- `ExcludeBED.filter` (src/ngsutils/bam/filter.py, lines 241-258), bin size as a
parameter; `bam` is `bam.getrname`. Returns `true` when the read passes
(is kept). -/
def excludeBEDFilter (binsize : Int) (regions : RegionMap) (bam : Nat → String)
    (read : Record) : Bool :=
  if ¬read.is_unmapped then
    let bin := pydiv read.pos binsize
    let ref := bam read.rname
    match regions (ref, bin) with
    | none => true
    | some lst => ¬lst.any (fun reg => bedRegionHits reg read)
  else true

/-- Build the index from BED lines and run `ExcludeBED.filter` on one read. -/
def excludeBEDVerdict (binsize : Int) (lines : List String) (bam : Nat → String)
    (read : Record) : Except String Bool :=
  (buildBED binsize lines).map (fun m => excludeBEDFilter binsize m bam read)

/-- Look up one bucket of a construction result (`none` if construction failed
or the key is absent). -/
def bedBucket (res : Except String RegionMap) (chrom : String) (bin : Int) :
    Option (List BedRegion) :=
  match res with
  | .ok m => m (chrom, bin)
  | .error _ => none

/-! ### _TagCompare criteria (eq / lt / lte / gt / gte)

CPython 2 compares values of distinct types by a fixed total order in which
`None` sorts below everything and numbers sort below strings; `==` across
distinct types is `False`.  `get_value` returns `None` for a missing tag, so
the comparison filters never raise — they compare `None` against the
configured literal. -/

/-- Python 2 `a < b` on tag values. -/
def pyLtVal : PyVal → PyVal → Bool
  | .int a, .int b => decide (a < b)
  | .str a, .str b => decide (a < b)
  | .int _, .str _ => true
  | .str _, .int _ => false

/-- Python 2 `a <= b` on tag values. -/
def pyLeVal (a b : PyVal) : Bool := pyLtVal a b || a == b

/-- Python 2 `a < b` where `a` may be `None` (a missing tag). -/
def pyLtOpt : Option PyVal → PyVal → Bool
  | none, _ => true
  | some a, b => pyLtVal a b

/-- Python 2 `a <= b` where `a` may be `None`. -/
def pyLeOpt : Option PyVal → PyVal → Bool
  | none, _ => true
  | some a, b => pyLeVal a b

/-- Python 2 `a > b` where `a` may be `None`. -/
def pyGtOpt : Option PyVal → PyVal → Bool
  | none, _ => false
  | some a, b => pyLtVal b a

/-- Python 2 `a >= b` where `a` may be `None`. -/
def pyGeOpt : Option PyVal → PyVal → Bool
  | none, _ => false
  | some a, b => pyLeVal b a

/-- Python 2 `a == b` where `a` may be `None` (the configured literal never is). -/
def pyEqOpt : Option PyVal → PyVal → Bool
  | none, _ => false
  | some a, b => a == b

/-- First tag with the given name, scanning the tag list in order. -/
def lookupTag : List (String × PyVal) → String → Option PyVal
  | [], _ => none
  | (n, v) :: rest, t => if n = t then some v else lookupTag rest t

/-- `_TagCompare.get_value` (src/ngsutils/bam/filter.py, lines 509-517): `MAPQ` is
resolved to the record's mapping quality, any other key to the first matching
tag, `None` when absent.  (The construction-time literal parse of
`_TagCompare.__init__` is outside this model; the configured value arrives
already typed.) -/
def get_value (tag : String) (read : Record) : Option PyVal :=
  if tag = "MAPQ" then some (.int read.mapq) else lookupTag read.tags tag

/-- `TagLessThan.filter`. -/
def tagLessThanFilter (tag : String) (value : PyVal) (read : Record) : Bool :=
  pyLtOpt (get_value tag read) value

/-- `TagLessThanEquals.filter`. -/
def tagLessThanEqualsFilter (tag : String) (value : PyVal) (read : Record) : Bool :=
  pyLeOpt (get_value tag read) value

/-- `TagGreaterThan.filter`. -/
def tagGreaterThanFilter (tag : String) (value : PyVal) (read : Record) : Bool :=
  pyGtOpt (get_value tag read) value

/-- `TagGreaterThanEquals.filter`. -/
def tagGreaterThanEqualsFilter (tag : String) (value : PyVal) (read : Record) : Bool :=
  pyGeOpt (get_value tag read) value

/-- `TagEquals.filter`. -/
def tagEqualsFilter (tag : String) (value : PyVal) (read : Record) : Bool :=
  pyEqOpt (get_value tag read) value

/-! ### ExcludeRegion / IncludeRegion -/

/-- A single `-exclude` region after `ExcludeRegion.__init__` normalisation
(1-based inclusive input becomes 0-based `start`, unchanged `end`). -/
structure ExclRegion where
  chrom : String
  start : Int
  stop : Int
deriving DecidableEq, Repr

/-- `ExcludeRegion.__init__` (src/ngsutils/bam/filter.py, lines 192-198):
`spl = region.split(':')`, `se = [int(x) for x in spl[1].split('-')]`,
`start = se[0] - 1`, `end = se[1]`. -/
def parseExcludeRegion (region : String) : Except String ExclRegion :=
  let spl := pySplit region ':'
  match pyIndex spl 0 with
  | .error e => .error e
  | .ok chrom =>
    match pyIndex spl 1 with
    | .error e => .error e
    | .ok s1 =>
      match (pySplit s1 '-').mapM (fun x => (pyInt x).toOption) with
      | none => .error "ValueError"
      | some se =>
        match pyIndex se 0 with
        | .error e => .error e
        | .ok s0 =>
          match pyIndex se 1 with
          | .error e => .error e
          | .ok s1v => .ok ⟨chrom, s0 - 1, s1v⟩

/-- `ExcludeRegion.filter` (src/ngsutils/bam/filter.py, lines 200-207):
`true` = the read passes (is kept). -/
def excludeRegionFilter (bam : Nat → String) (er : ExclRegion) (read : Record) : Bool :=
  if ¬read.is_unmapped then
    if bam read.rname = er.chrom then
      if decide (er.start ≤ read.pos ∧ read.pos ≤ er.stop) then false
      else if decide (er.start ≤ read.aend ∧ read.aend ≤ er.stop) then false
      else true
    else true
  else true

/-- The class-level mutable state of `IncludeRegion`: the shared `_excludes`
list (every constructed instance appends to it) and the `_last` cache slot. -/
structure IncludeRegionState where
  excludes : List ExclRegion
  last : Option Record
deriving Repr

/-- `IncludeRegion.__init__`: appends an `ExcludeRegion` to the class-level list. -/
def includeRegionInit (st : IncludeRegionState) (er : ExclRegion) : IncludeRegionState :=
  { st with excludes := st.excludes ++ [er] }

/-- `IncludeRegion.filter` (src/ngsutils/bam/filter.py, lines 158-167): on a cache
hit (`read == IncludeRegion._last`) it returns `True` without evaluating the
regions; otherwise it stores the read in `_last` and passes iff some exclude
region rejects the read (i.e. the read is inside some include region). -/
def includeRegionFilter (bam : Nat → String) (st : IncludeRegionState)
    (read : Record) : Bool × IncludeRegionState :=
  if st.last = some read then (true, st)
  else
    let st' := { st with last := some read }
    (st'.excludes.any (fun excl => !excludeRegionFilter bam excl read), st')

/-! ### MismatchDbSNP / MismatchRefDbSNP

`read_calc_mismatches`, `read_calc_variations`, `read_calc_mismatches_gen`
(module `ngsutils.bam`) and `DBSNP.is_valid_variation` (module
`ngsutils.support.dbsnp`) are external to the two embedded files; they enter
the model as oracle parameters.  A variation is the `(op, pos, seq)` triple
the generators yield. -/

/-- The mm/snps tally loop shared by `MismatchDbSNP.filter` and
`MismatchRefDbSNP.filter`: each variation not validated by the catalog
increments `mm`, each validated one increments `snps`. -/
def countMMSnps (isValid : String → Nat → Int → String → Bool) (chrom : String)
    (vars : List (Nat × Int × String)) : Int × Int :=
  vars.foldl
    (fun acc v =>
      if isValid chrom v.1 v.2.1 v.2.2 then (acc.1, acc.2 + 1) else (acc.1 + 1, acc.2))
    (0, 0)

/-- `MismatchDbSNP.filter` (src/ngsutils/bam/filter.py, lines 326-350).  Returns
the verdict and the (possibly `ZS`-annotated) read. -/
def mismatchDbSNPFilter (num : Int) (calcMismatches : Record → Int)
    (calcVariations : Record → List (Nat × Int × String))
    (isValid : String → Nat → Int → String → Bool)
    (bam : Nat → String) (read : Record) : Bool × Record :=
  if read.is_unmapped then (false, read)
  else if calcMismatches read ≤ num then (true, read)
  else
    let chrom := bam read.rname
    let c := countMMSnps isValid chrom (calcVariations read)
    if c.1 > num then (false, read)
    else if c.2 ≠ 0 then (true, { read with tags := read.tags ++ [("ZS", .int c.2)] })
    else (true, read)

/-- `MismatchRefDbSNP.filter` (src/ngsutils/bam/filter.py, lines 367-388): same
tally, but the variations come from the reference-walking generator and there
is no edit-distance shortcut. -/
def mismatchRefDbSNPFilter (num : Int)
    (calcMismatchesGen : String → Record → List (Nat × Int × String))
    (isValid : String → Nat → Int → String → Bool)
    (bam : Nat → String) (read : Record) : Bool × Record :=
  if read.is_unmapped then (false, read)
  else
    let chrom := bam read.rname
    let c := countMMSnps isValid chrom (calcMismatchesGen chrom read)
    if c.1 > num then (false, read)
    else if c.2 ≠ 0 then (true, { read with tags := read.tags ++ [("ZS", .int c.2)] })
    else (true, read)

/-! ### The filtering pipeline (`bam_filter`) -/

/-- Decimal digits of a natural number (fuel-based so the kernel can reduce it). -/
def natToChars : Nat → Nat → List Char
  | 0, _ => []
  | fuel + 1, n =>
    if n < 10 then [Char.ofNat (48 + n)]
    else natToChars fuel (n / 10) ++ [Char.ofNat (48 + n % 10)]

/-- Python `str(n)` for an integer. -/
def pyStrInt (n : Int) : String :=
  if n < 0 then "-" ++ ⟨natToChars ((-n).toNat + 1) (-n).toNat⟩
  else ⟨natToChars (n.toNat + 1) n.toNat⟩

/-- `os.path.basename`. -/
def pyBasename (p : String) : String := ((pySplit p '/').reverse).headD ""

/-- One configured criterion as the pipeline sees it: its `repr` (written to the
failed log), its `filter` method (which may mutate the read's tag list), and
whether its class defines a `close` method. -/
structure FilterCriterion where
  description : String
  eval : Record → Bool × Record
  hasClose : Bool

/-- Result of the per-read criterion loop. -/
inductive EvalOutcome where
  | pass (r : Record)
  | fail (r : Record) (desc : String)
deriving DecidableEq, Repr

/-- The inner loop of `bam_filter` (src/ngsutils/bam/filter.py, lines 625-632):
evaluate criteria in order, stop at the first `False` (`break`); the trace
lists the descriptions of the criteria actually evaluated. -/
def evalLoop : List FilterCriterion → Record → EvalOutcome × List String
  | [], read => (.pass read, [])
  | c :: cs, read =>
    let res := c.eval read
    if res.1 then
      let rest := evalLoop cs res.2
      (rest.1, c.description :: rest.2)
    else (.fail res.2 c.description, [c.description])

/-- Observable pipeline state: the two counters, the records written to the
output stream (in order) and the `(qname, description)` pairs written to the
failed log (in order). -/
structure PipeState where
  passed : Nat
  failed : Nat
  output : List Record
  failedLog : List (String × String)
deriving DecidableEq, Repr

/-- Counters at zero, no output, empty failed log. -/
def initPipeState : PipeState := ⟨0, 0, [], []⟩

/-- One iteration of the read loop of `bam_filter` (src/ngsutils/bam/filter.py,
lines 621-635): a read failing some criterion increments `failed` and is
logged; a read passing all criteria increments `passed` and is written. -/
def bamFilterStep (criteria : List FilterCriterion) (st : PipeState)
    (read : Record) : PipeState :=
  match (evalLoop criteria read).1 with
  | .pass r => { st with passed := st.passed + 1, output := st.output ++ [r] }
  | .fail r d =>
    { st with failed := st.failed + 1, failedLog := st.failedLog ++ [(r.qname, d)] }

/-- `bam_filter`'s read loop over a finite input stream. -/
def bamFilter (criteria : List FilterCriterion) (reads : List Record) : PipeState :=
  reads.foldl (bamFilterStep criteria) initPipeState

/-- The shutdown loop of `bam_filter` (src/ngsutils/bam/filter.py, lines 644-645):
`for criterion in criteria: criterion.close()`.  Calling `close` on an
instance whose class defines none raises `AttributeError`; on success the
result lists the criteria closed, in order. -/
def closeAllFrom : List String → List FilterCriterion → Except String (List String)
  | acc, [] => .ok acc
  | acc, c :: cs =>
    if c.hasClose then closeAllFrom (acc ++ [c.description]) cs
    else .error ("AttributeError: " ++ c.description ++ " has no attribute close")

/-- Close every criterion in configured order. -/
def closeAll (criteria : List FilterCriterion) : Except String (List String) :=
  closeAllFrom [] criteria

/-- `Mapped` (src/ngsutils/bam/filter.py, lines 397-412); defines `close`. -/
def mkMapped : FilterCriterion :=
  { description := "is mapped",
    eval := fun read =>
      (if read.is_paired && (read.is_unmapped || read.mate_is_unmapped) then false
       else if read.is_unmapped then false
       else true, read),
    hasClose := true }

/-- `QCFailFlag` (lines 471-479); defines `close`. -/
def mkQCFail : FilterCriterion :=
  { description := "no 0x200 (qcfail) flag",
    eval := fun read => (!read.is_qcfail, read),
    hasClose := true }

/-- `SecondaryFlag` (lines 432-440); defines `close`. -/
def mkSecondary : FilterCriterion :=
  { description := "no 0x100 (secondary) flag",
    eval := fun read => (!read.is_secondary, read),
    hasClose := true }

/-- `ReadMinLength` (lines 443-454); defines `close`. -/
def mkReadMinLength (minval : Int) : FilterCriterion :=
  { description := "read length min: " ++ pyStrInt minval,
    eval := fun read => (decide ((read.seq.length : Int) ≥ minval), read),
    hasClose := true }

/-- `MismatchDbSNP` as a pipeline criterion: its class defines `__init__`,
`filter` and `__repr__` but NO `close` method (src/ngsutils/bam/filter.py,
lines 314-353). -/
def mkMismatchDbSNP (num : Int) (fname : String) (calcMismatches : Record → Int)
    (calcVariations : Record → List (Nat × Int × String))
    (isValid : String → Nat → Int → String → Bool)
    (bam : Nat → String) : FilterCriterion :=
  { description := ">" ++ pyStrInt num ++ " mismatch" ++
      (if num = 1 then "" else "es") ++ " using " ++ pyBasename fname,
    eval := mismatchDbSNPFilter num calcMismatches calcVariations isValid bam,
    hasClose := false }

/-! ### The tag pipeline (`bam_tag`, src/ngsutils/bam/tag.py) -/

/-- `Suffix.filter` body: append the configured suffix to the identifier. -/
def suffixStep (suffix : String) (read : Record) : Record :=
  { read with qname := read.qname ++ suffix }

/-- `CufflinksXS.filter` body (src/ngsutils/bam/tag.py, lines 107-120): copy the
tag list, and for a mapped read append `XS:A` valued `-` (reverse strand) or
`+` (forward); an unmapped read gets no strand tag. -/
def cufflinksXSStep (read : Record) : Record :=
  let newtags := read.tags
  if ¬read.is_unmapped then
    { read with
      tags := newtags ++ [("XS:A", .str (if read.is_reverse then "-" else "+"))] }
  else { read with tags := newtags }

/-- `Tag.filter` body: append the (construction-time parsed) tag. -/
def tagStep (key : String) (value : PyVal) (read : Record) : Record :=
  { read with tags := read.tags ++ [(key, value)] }

/-- `bam_tag`'s processing chain (src/ngsutils/bam/tag.py, lines 17-52): the
reader yields every read in order; each configured stage (`Suffix`, then
`CufflinksXS`, then `Tag`) maps over the stream; every read is written. -/
def bamTag (suffix : Option String) (xs : Bool) (tag : Option (String × PyVal))
    (reads : List Record) : List Record :=
  let s1 := match suffix with
    | some s => reads.map (suffixStep s)
    | none => reads
  let s2 := if xs then s1.map cufflinksXSStep else s1
  match tag with
  | some (k, v) => s2.map (tagStep k v)
  | none => s2

/-! ### Concrete fixtures -/

/-- A mapped forward-strand read on reference 0 at position 50000. -/
def readAt50000 : Record :=
  { qname := "r1", is_unmapped := false, mate_is_unmapped := false,
    is_paired := false, is_reverse := false, is_secondary := false,
    is_qcfail := false, rname := 0, pos := 50000, aend := 50050,
    mapq := 30, seq := "ACGT", tags := [] }

/-- Reference-name resolution used in the concrete examples. -/
def chr1Bam : Nat → String := fun _ => "chr1"

/-- The BED file of the region-index counterexamples: one forward-strand region
on `chr1` spanning coordinates 0-150000, i.e. bins 0 and 1 at bin size 100000. -/
def twoBinLines : List String := ["chr1\t0\t150000\tr1\t0\t+"]

/-- A read with no tags, used for the missing-tag comparisons. -/
def untaggedRead : Record :=
  { qname := "q0", is_unmapped := false, mate_is_unmapped := false,
    is_paired := false, is_reverse := false, is_secondary := false,
    is_qcfail := false, rname := 0, pos := 100, aend := 150,
    mapq := 30, seq := "ACGT", tags := [] }

/-! ### Claims -/

/-- C1: the claimed RegionIndex invariant — every region registered in every
(chromosome, bin) bucket its span overlaps — fails on the code.  The `append`
in `ExcludeBED.__init__` sits outside the bin loop, so the region
`chr1:0-150000` (bins `0/100000 = 0` through `150000/100000 = 1`) lands only
in bin 1; the bucket for bin 0 is created but left empty, and a read at
position 50000 — strictly inside the region — finds an empty bucket and
passes `ExcludeBED.filter`. -/
theorem C1_region_missing_from_overlapped_bin :
    pydiv 0 100000 = 0 ∧ pydiv 150000 100000 = 1 ∧
    bedBucket (buildBED 100000 twoBinLines) "chr1" 1 = some [(0, 150000, "+")] ∧
    bedBucket (buildBED 100000 twoBinLines) "chr1" 0 = some [] ∧
    ((0 : Int) ≤ readAt50000.pos ∧ readAt50000.pos ≤ 150000) ∧
    excludeBEDVerdict 100000 twoBinLines chr1Bam readAt50000 = .ok true :=
  ⟨rfl, rfl, by decide, by decide, by decide, rfl⟩

/-- C7: the bin size is NOT behaviour-neutral on the code.  Because a region
is registered only in its final bin, the read at position 50000 inside
`chr1:0-150000` passes at the reference bin size 100000 (its bin 0 bucket is
empty) but is excluded at bin size 200000 (the region's single bin 0 holds
it).  The claimed refinement property fails. -/
theorem C7_binsize_changes_verdict :
    excludeBEDVerdict 100000 twoBinLines chr1Bam readAt50000 = .ok true ∧
    excludeBEDVerdict 200000 twoBinLines chr1Bam readAt50000 = .ok false :=
  ⟨rfl, rfl⟩

/-- A non-skipped BED line with fewer than six tab-delimited columns makes
`processBedLine` raise: either an `IndexError`/`ValueError` at columns 1 or 2,
or the unconditional `strand = cols[5]` read fails. -/
lemma processBedLine_error_of_short (binsize : Int) (line : String)
    (hne : line ≠ "") (hnc : pyHead line ≠ some '#')
    (hcols : (pyCols line).length < 6) :
    ∀ m, ∃ e, processBedLine binsize m line = .error e := by
  intro m
  have h5 : pyIndex (pyCols line) 5 = .error "IndexError" := by
    unfold pyIndex
    rw [List.get?_eq_none.mpr (by omega)]
  unfold processBedLine
  rw [if_neg hne, if_neg hnc]
  rcases h0 : pyIndex (pyCols line) 0 with e0 | chrom
  · exact ⟨e0, by simp [h0]⟩
  · rcases h1 : pyIndex (pyCols line) 1 with e1 | s1
    · exact ⟨e1, by simp [h0, h1]⟩
    · rcases h2 : pyInt s1 with e2 | start
      · exact ⟨e2, by simp [h0, h1, h2]⟩
      · rcases h3 : pyIndex (pyCols line) 2 with e3 | s2
        · exact ⟨e3, by simp [h0, h1, h2, h3]⟩
        · rcases h4 : pyInt s2 with e4 | stop
          · exact ⟨e4, by simp [h0, h1, h2, h3, h4]⟩
          · exact ⟨"IndexError", by simp [h0, h1, h2, h3, h4, h5]⟩

/-- A line on which `processBedLine` always raises makes the whole
`ExcludeBED.__init__` line loop raise, from any intermediate dict. -/
lemma buildBEDFrom_error_of_bad_line (binsize : Int) (line : String)
    (hbad : ∀ m, ∃ e, processBedLine binsize m line = .error e) :
    ∀ (lines : List String) (m : RegionMap), line ∈ lines →
      ∃ e, buildBEDFrom binsize m lines = .error e := by
  intro lines
  induction lines with
  | nil => intro m hmem; cases hmem
  | cons a rest ih =>
    intro m hmem
    rcases List.mem_cons.mp hmem with rfl | hmem'
    · obtain ⟨e, he⟩ := hbad m
      exact ⟨e, by simp [buildBEDFrom, he]⟩
    · rcases hp : processBedLine binsize m a with e' | m'
      · exact ⟨e', by simp [buildBEDFrom, hp]⟩
      · obtain ⟨e, he⟩ := ih m' hmem'
        exact ⟨e, by simp [buildBEDFrom, hp, he]⟩

/-- C10: `ExcludeBED` (and hence `IncludeBED`, which constructs an `ExcludeBED`)
requires at least six tab-delimited columns on every non-empty non-comment
BED line, because `strand = cols[5]` is read unconditionally; any such line
with fewer than six columns makes construction fail (raise) before any
record is processed. -/
theorem C10_short_line_fails_construction (lines : List String) (line : String)
    (hmem : line ∈ lines) (hne : line ≠ "") (hnc : pyHead line ≠ some '#')
    (hcols : (pyCols line).length < 6) :
    ∃ e, buildBED 100000 lines = .error e :=
  buildBEDFrom_error_of_bad_line 100000 line
    (processBedLine_error_of_short 100000 line hne hnc hcols)
    lines emptyRegions hmem

/-- A 3-column BED line is in range of C10's hypotheses and does make
construction fail. -/
theorem C10_short_line_fails_construction_witness :
    ("chr1\t100\t200" ∈ ["chr1\t100\t200"] ∧ "chr1\t100\t200" ≠ "" ∧
      pyHead "chr1\t100\t200" ≠ some '#' ∧ (pyCols "chr1\t100\t200").length < 6) ∧
    ∃ e, buildBED 100000 ["chr1\t100\t200"] = .error e :=
  ⟨⟨by decide, by decide, by decide, by decide⟩,
    C10_short_line_fails_construction ["chr1\t100\t200"] "chr1\t100\t200"
      (by decide) (by decide) (by decide) (by decide)⟩

/-- C3 counterexample: with the tag `AS` absent, `TagLessThan('AS', 1000)`
PASSES the record — `get_value` returns `None` and Python 2 evaluates
`None < 1000` to `True` — refuting the claim that every comparison with a
missing tag evaluates to false. -/
theorem C3_missing_tag_lt_passes :
    untaggedRead.tags = [] ∧
    get_value "AS" untaggedRead = none ∧
    tagLessThanFilter "AS" (.int 1000) untaggedRead = true :=
  ⟨rfl, rfl, rfl⟩

/-- C3 amended: a missing tag never raises — the comparison runs against
`None`, which CPython 2 sorts below every value — so `eq`, `gt` and `gte`
evaluate to false, while `lt` and `lte` evaluate to true. -/
theorem C3_missing_tag_comparisons (tag : String) (value : PyVal) (read : Record)
    (h : get_value tag read = none) :
    tagEqualsFilter tag value read = false ∧
    tagGreaterThanFilter tag value read = false ∧
    tagGreaterThanEqualsFilter tag value read = false ∧
    tagLessThanFilter tag value read = true ∧
    tagLessThanEqualsFilter tag value read = true := by
  simp [tagEqualsFilter, tagGreaterThanFilter, tagGreaterThanEqualsFilter,
    tagLessThanFilter, tagLessThanEqualsFilter, h, pyEqOpt, pyGtOpt, pyGeOpt,
    pyLtOpt, pyLeOpt]

/-- The C3 amendment instantiated: the untagged record, key `NM`, value 5. -/
theorem C3_missing_tag_comparisons_witness :
    get_value "NM" untaggedRead = none ∧
    (tagEqualsFilter "NM" (.int 5) untaggedRead = false ∧
      tagGreaterThanFilter "NM" (.int 5) untaggedRead = false ∧
      tagGreaterThanEqualsFilter "NM" (.int 5) untaggedRead = false ∧
      tagLessThanFilter "NM" (.int 5) untaggedRead = true ∧
      tagLessThanEqualsFilter "NM" (.int 5) untaggedRead = true) :=
  ⟨by decide, C3_missing_tag_comparisons "NM" (.int 5) untaggedRead (by decide)⟩

/-- The single include region `chr1:100-200` after construction-time
normalisation. -/
def inclRegion : ExclRegion := ⟨"chr1", 99, 200⟩

/-- A mapped read far outside `inclRegion`. -/
def farRead : Record :=
  { qname := "q2", is_unmapped := false, mate_is_unmapped := false,
    is_paired := false, is_reverse := false, is_secondary := false,
    is_qcfail := false, rname := 0, pos := 1000, aend := 1050,
    mapq := 30, seq := "ACGT", tags := [] }

/-- A mapped read inside `inclRegion`. -/
def nearRead : Record :=
  { qname := "q3", is_unmapped := false, mate_is_unmapped := false,
    is_paired := false, is_reverse := false, is_secondary := false,
    is_qcfail := false, rname := 0, pos := 150, aend := 180,
    mapq := 30, seq := "ACGT", tags := [] }

/-- C8 counterexample: the `_last` cache stores only the record, not the
verdict, and a cache hit returns `True` unconditionally.  For a record outside
the include region the fresh evaluation returns `False`, yet the immediately
repeated evaluation on the equal record returns `True` — the two consecutive
verdicts differ, refuting the claim that the cache reuses the prior verdict. -/
theorem C8_cache_flips_verdict :
    parseExcludeRegion "chr1:100-200" = .ok inclRegion ∧
    (includeRegionFilter chr1Bam ⟨[inclRegion], none⟩ farRead).1 = false ∧
    (includeRegionFilter chr1Bam
        (includeRegionFilter chr1Bam ⟨[inclRegion], none⟩ farRead).2 farRead).1 = true :=
  ⟨rfl, by decide, by decide⟩

/-- C8 amended: the cached second evaluation returns `True` unconditionally,
so it reuses the prior verdict exactly when the prior evaluation returned
`True`; for a record whose fresh verdict is `False` the cached evaluation
returns `True` instead. -/
theorem C8_cache_hit_preserves_true (bam : Nat → String)
    (st : IncludeRegionState) (read : Record)
    (h : (includeRegionFilter bam st read).1 = true) :
    (includeRegionFilter bam (includeRegionFilter bam st read).2 read).1 =
      (includeRegionFilter bam st read).1 := by
  rw [h]
  unfold includeRegionFilter
  by_cases hc : st.last = some read
  · simp [includeRegionFilter, hc]
  · simp [includeRegionFilter, hc]

/-- The C8 amendment instantiated: a read inside the region passes fresh, and
the cached repeat returns the same verdict. -/
theorem C8_cache_hit_preserves_true_witness :
    (includeRegionFilter chr1Bam ⟨[inclRegion], none⟩ nearRead).1 = true ∧
    (includeRegionFilter chr1Bam
        (includeRegionFilter chr1Bam ⟨[inclRegion], none⟩ nearRead).2 nearRead).1 =
      (includeRegionFilter chr1Bam ⟨[inclRegion], none⟩ nearRead).1 :=
  ⟨by decide, C8_cache_hit_preserves_true chr1Bam ⟨[inclRegion], none⟩ nearRead (by decide)⟩

/-- A read appended a `ZS` tag holding the catalogued-variant count. -/
def zsAnnotated (read : Record) (snps : Int) : Record :=
  { read with tags := read.tags ++ [("ZS", .int snps)] }

/-- Variant-catalog oracle for the C2 counterexample: only position 10 is a
catalogued variant. -/
def c2IsValid : String → Nat → Int → String → Bool := fun _ _ pos _ => pos = 10

/-- Variation oracle for the C2 counterexample: two variations, at positions
10 (catalogued) and 20 (not). -/
def c2Vars : Record → List (Nat × Int × String) := fun _ => [(0, 10, "A"), (0, 20, "C")]

/-- The same two variations, as the reference-walking generator yields them. -/
def c2Gen : String → Record → List (Nat × Int × String) := fun _ _ => [(0, 10, "A"), (0, 20, "C")]

/-- C2 counterexample: threshold 0, one catalogued match (position 10) and one
true mismatch (position 20).  The tally is `mm = 1 > 0`, so `filter` returns
`False` BEFORE the `ZS` append is reached: the record comes back unchanged,
with no `ZS` tag, although a catalogued match was found.  The fail path does
not annotate — for either dbSNP criterion. -/
theorem C2_no_zs_on_fail_path :
    c2IsValid "chr1" 0 10 "A" = true ∧
    countMMSnps c2IsValid "chr1" (c2Vars untaggedRead) = (1, 1) ∧
    mismatchDbSNPFilter 0 (fun _ => 2) c2Vars c2IsValid chr1Bam untaggedRead =
      (false, untaggedRead) ∧
    mismatchRefDbSNPFilter 0 c2Gen c2IsValid chr1Bam untaggedRead =
      (false, untaggedRead) ∧
    untaggedRead.tags = [] :=
  ⟨rfl, by decide, by decide, by decide, rfl⟩

/-- C2 amended: when the variation loop runs (mapped read; for `MismatchDbSNP`
additionally `read_calc_mismatches(read) > num`) and tallies `mm` true
mismatches and `snps` catalogued matches, then on the fail path (`mm > num`)
the record is returned UNCHANGED — no `ZS` tag — while on the pass path with
`snps ≠ 0` the `ZS` tag holding `snps` is appended.  The annotation happens
only on the pass path, for both dbSNP criteria. -/
theorem C2_zs_tag_only_on_pass (num mm snps : Int) (calcMM : Record → Int)
    (vars : Record → List (Nat × Int × String))
    (gen : String → Record → List (Nat × Int × String))
    (isValid : String → Nat → Int → String → Bool) (bam : Nat → String)
    (read : Record)
    (hmap : read.is_unmapped = false) (hnm : num < calcMM read)
    (hcount : countMMSnps isValid (bam read.rname) (vars read) = (mm, snps))
    (hgen : countMMSnps isValid (bam read.rname) (gen (bam read.rname) read) = (mm, snps)) :
    (num < mm →
      mismatchDbSNPFilter num calcMM vars isValid bam read = (false, read) ∧
      mismatchRefDbSNPFilter num gen isValid bam read = (false, read)) ∧
    (mm ≤ num → snps ≠ 0 →
      mismatchDbSNPFilter num calcMM vars isValid bam read = (true, zsAnnotated read snps) ∧
      mismatchRefDbSNPFilter num gen isValid bam read = (true, zsAnnotated read snps)) := by
  have hshort : ¬ calcMM read ≤ num := by omega
  constructor
  · intro hf
    constructor
    · simp [mismatchDbSNPFilter, hmap, hshort, hcount, hf]
    · simp [mismatchRefDbSNPFilter, hmap, hgen, hf]
  · intro hp hs
    have hf' : ¬ mm > num := by omega
    constructor
    · simp [mismatchDbSNPFilter, hmap, hshort, hcount, hf', hs, zsAnnotated]
    · simp [mismatchRefDbSNPFilter, hmap, hgen, hf', hs, zsAnnotated]

/-- The C2 amendment instantiated at threshold 1: `mm = 1 ≤ 1`, `snps = 1 ≠ 0`,
so both criteria pass and append `ZS:1`; and at threshold 0 (via `0 < 1`)
both fail without annotating. -/
theorem C2_zs_tag_only_on_pass_witness :
    (untaggedRead.is_unmapped = false ∧ (1 : Int) < 2 ∧
      countMMSnps c2IsValid "chr1" (c2Vars untaggedRead) = (1, 1)) ∧
    (((1 : Int) < 1 →
      mismatchDbSNPFilter 1 (fun _ => 2) c2Vars c2IsValid chr1Bam untaggedRead =
        (false, untaggedRead) ∧
      mismatchRefDbSNPFilter 1 c2Gen c2IsValid chr1Bam untaggedRead =
        (false, untaggedRead)) ∧
    ((1 : Int) ≤ 1 → (1 : Int) ≠ 0 →
      mismatchDbSNPFilter 1 (fun _ => 2) c2Vars c2IsValid chr1Bam untaggedRead =
        (true, zsAnnotated untaggedRead 1) ∧
      mismatchRefDbSNPFilter 1 c2Gen c2IsValid chr1Bam untaggedRead =
        (true, zsAnnotated untaggedRead 1))) :=
  ⟨⟨rfl, by decide, by decide⟩,
    C2_zs_tag_only_on_pass 1 1 1 (fun _ => 2) c2Vars c2Gen c2IsValid chr1Bam
      untaggedRead rfl (by decide) (by decide) (by decide)⟩

/-- C4: the shutdown loop does NOT close every criterion once for every
registry-constructible list: class `MismatchDbSNP` defines no `close` method,
so a criteria list containing it makes `criterion.close()` raise
`AttributeError`, and criteria after it are never closed.  Without that class
the loop does close every criterion once, in configured order. -/
theorem C4_mismatchdbsnp_close_raises :
    closeAll [mkMapped,
        mkMismatchDbSNP 5 "dbsnp.txt.bgz" (fun _ => 0) (fun _ => [])
          (fun _ _ _ _ => false) chr1Bam,
        mkQCFail] =
      .error "AttributeError: >5 mismatches using dbsnp.txt.bgz has no attribute close" ∧
    closeAll [mkMapped, mkQCFail, mkSecondary] =
      .ok ["is mapped", "no 0x200 (qcfail) flag", "no 0x100 (secondary) flag"] :=
  ⟨rfl, rfl⟩

/-- C5: the first failing criterion short-circuits the per-record loop.  If
every criterion of `pre` passes (mutating the read to `r2`) and `c` then
fails, the loop over `pre ++ c :: post` fails with `c`'s description, its
evaluation trace covers exactly `pre` and `c` — nothing of `post` runs, so
later side effects cannot occur — and the pipeline step leaves the output
stream and `passed` untouched while incrementing `failed` by one and logging
`(qname, description-of-c)`. -/
theorem C5_short_circuit (pre post : List FilterCriterion) (c : FilterCriterion)
    (read r2 rf : Record) (tr : List String) (st : PipeState)
    (hpre : evalLoop pre read = (.pass r2, tr))
    (hfail : c.eval r2 = (false, rf)) :
    evalLoop (pre ++ c :: post) read = (.fail rf c.description, tr ++ [c.description]) ∧
    bamFilterStep (pre ++ c :: post) st read =
      { st with
          failed := st.failed + 1
          failedLog := st.failedLog ++ [(rf.qname, c.description)] } := by
  have main : ∀ (pre : List FilterCriterion) (read : Record) (tr : List String),
      evalLoop pre read = (.pass r2, tr) →
      evalLoop (pre ++ c :: post) read =
        (.fail rf c.description, tr ++ [c.description]) := by
    intro pre
    induction pre with
    | nil =>
      intro read tr h
      simp only [evalLoop, Prod.mk.injEq, EvalOutcome.pass.injEq] at h
      obtain ⟨h1, h2⟩ := h
      subst h1; subst h2
      simp [evalLoop, hfail]
    | cons p ps ih =>
      intro read tr h
      simp only [evalLoop] at h
      rcases hE : evalLoop ps (p.eval read).2 with ⟨o, tr'⟩
      rw [hE] at h
      by_cases hp : (p.eval read).1
      · rw [if_pos hp] at h
        simp only [Prod.mk.injEq] at h
        obtain ⟨h1, h2⟩ := h
        subst h1
        have hrec := ih (p.eval read).2 tr' hE
        simp only [List.cons_append, evalLoop, hrec]
        rw [if_pos hp]
        simp [hrec, ← h2]
      · rw [if_neg hp] at h
        simp at h
  refine ⟨main pre read tr hpre, ?_⟩
  unfold bamFilterStep
  rw [main pre read tr hpre]

/-- The C5 short-circuit instantiated: a mapped qc-failed read passes
`Mapped`, fails `QCFailFlag`, and `SecondaryFlag` after it is never
evaluated; the pipeline step records the failure and writes nothing. -/
theorem C5_short_circuit_witness :
    (evalLoop [mkMapped] untaggedRead = (.pass untaggedRead, ["is mapped"]) ∧
      mkQCFail.eval { untaggedRead with is_qcfail := true } =
        (false, { untaggedRead with is_qcfail := true })) ∧
    (evalLoop ([mkMapped] ++ mkQCFail :: [mkSecondary])
        { untaggedRead with is_qcfail := true } =
      (.fail { untaggedRead with is_qcfail := true } "no 0x200 (qcfail) flag",
        ["is mapped", "no 0x200 (qcfail) flag"]) ∧
      bamFilterStep ([mkMapped] ++ mkQCFail :: [mkSecondary]) initPipeState
          { untaggedRead with is_qcfail := true } =
        { initPipeState with
            failed := 1
            failedLog := [("q0", "no 0x200 (qcfail) flag")] }) :=
  ⟨⟨by decide, by decide⟩,
    C5_short_circuit [mkMapped] [mkSecondary] mkQCFail
      { untaggedRead with is_qcfail := true }
      { untaggedRead with is_qcfail := true }
      { untaggedRead with is_qcfail := true }
      ["is mapped"] initPipeState (by decide) (by decide)⟩

/-- C6: every record increments exactly one of the two counters, so after any
run `passed + failed` equals the number of input records. -/
theorem C6_counts_partition (criteria : List FilterCriterion) (reads : List Record) :
    (bamFilter criteria reads).passed + (bamFilter criteria reads).failed =
      reads.length := by
  have step : ∀ (st : PipeState) (read : Record),
      (bamFilterStep criteria st read).passed + (bamFilterStep criteria st read).failed =
        st.passed + st.failed + 1 := by
    intro st read
    unfold bamFilterStep
    rcases (evalLoop criteria read).1 with r | ⟨r, d⟩
    · show st.passed + 1 + st.failed = st.passed + st.failed + 1
      omega
    · show st.passed + (st.failed + 1) = st.passed + st.failed + 1
      omega
  have main : ∀ (reads : List Record) (st : PipeState),
      (reads.foldl (bamFilterStep criteria) st).passed +
        (reads.foldl (bamFilterStep criteria) st).failed =
        st.passed + st.failed + reads.length := by
    intro reads
    induction reads with
    | nil => intro st; simp
    | cons a rest ih =>
      intro st
      simp only [List.foldl_cons, ih, step, List.length_cons]
      omega
  simpa [bamFilter, initPipeState] using main reads initPipeState

/-- The identifier-`readA` fixture of the tag-pipeline scenario: mapped,
forward strand, one pre-existing tag. -/
def readA : Record :=
  { qname := "readA", is_unmapped := false, mate_is_unmapped := false,
    is_paired := false, is_reverse := false, is_secondary := false,
    is_qcfail := false, rname := 0, pos := 500, aend := 550,
    mapq := 30, seq := "ACGT", tags := [("NM", .int 0)] }

/-- An unmapped read entering the tag pipeline. -/
def readU : Record :=
  { qname := "readU", is_unmapped := true, mate_is_unmapped := false,
    is_paired := false, is_reverse := false, is_secondary := false,
    is_qcfail := false, rname := 0, pos := 0, aend := 0,
    mapq := 0, seq := "ACGT", tags := [] }

/-- C9: with `Suffix("/1")` and `CufflinksXS` configured, the tag pipeline is
exactly an order-preserving map — every input record is output once, each
transformer applied once, suffix first — and on the concrete fixtures the
mapped forward read `readA` becomes `readA/1` with an appended `XS:A = +`
tag, while the unmapped read gains no strand tag. -/
theorem C9_tag_pipeline_maps_all :
    (∀ reads : List Record,
      bamTag (some "/1") true none reads =
        reads.map (fun r => cufflinksXSStep (suffixStep "/1" r)) ∧
      (bamTag (some "/1") true none reads).length = reads.length) ∧
    bamTag (some "/1") true none [readA, readU] =
      [{ readA with qname := "readA/1", tags := readA.tags ++ [("XS:A", .str "+")] },
       { readU with qname := "readU/1" }] ∧
    lookupTag (cufflinksXSStep (suffixStep "/1" readU)).tags "XS:A" = none := by
  refine ⟨fun reads => ⟨?_, ?_⟩, by decide, by decide⟩
  · simp [bamTag, List.map_map, Function.comp]
  · simp [bamTag]

end NGSUtils
